import Mathlib

/-!
Verification of the IMDb list client of imdb-trakt-sync: the request
executor (`doRequest`), the list fetcher (`ListGet` / `WatchlistGet`) and
the CSV-to-entity parser, checked against the repository's tests and spec.
The runtime implementation file is absent from the visible sources (only
its test file is present), so the operational definitions below are
modelled from the spec, constrained by the observable behaviour the test
file asserts.
-/

namespace ImdbTraktSync

/-- The fields identifying one HTTP request, as built by the client. -/
structure RequestFields where
  Method : String
  BasePath : String
  Endpoint : String
deriving DecidableEq, Repr

/-- The part of an HTTP response the client inspects: status code, the
Content-Disposition header (when present) and the body text. -/
structure HttpResponse where
  statusCode : Nat
  contentDisposition : Option String
  body : String
deriving DecidableEq, Repr

/-- What the network produces for one issued request: either a transport
failure (connection refused, timeout, DNS) or a server response. -/
inductive ServerBehavior where
  | transportFailure (msg : String)
  | response (res : HttpResponse)

/-- A server/transport pair, as seen by the client: a deterministic
assignment of an outcome to each request. -/
def Server := RequestFields → ServerBehavior

/-- Domain error carrying the offending status code and a human-readable
classification. -/
structure ApiError where
  httpStatusCode : Nat
  message : String
deriving DecidableEq, Repr

/-- The errors a client call can surface: a transport failure, a domain
`ApiError`, or a parsing error. -/
inductive ClientError where
  | transport (msg : String)
  | api (e : ApiError)
  | parse (msg : String)
deriving DecidableEq, Repr

/-- Client configuration: base path and the fixed watchlist identifier. -/
structure ImdbConfig where
  BasePath : String
  WatchlistId : String
deriving DecidableEq, Repr

/-- The IMDb client: an HTTP client (modelled as the server function it
talks to) plus configuration. -/
structure ImdbClient where
  client : Server
  config : ImdbConfig

/-- One item of a fetched list: the fields of one CSV data row, treated
opaquely by this core beyond row count and order. -/
structure ImdbItem where
  fields : List String
deriving DecidableEq, Repr

/-- One fetched list. -/
structure ImdbList where
  ListId : String
  ListName : String
  ListItems : List ImdbItem
  IsWatchlist : Bool
  TraktListSlug : String
deriving DecidableEq, Repr

/-- Whether a status code is a 2xx success. -/
def is2xx (s : Nat) : Bool := 200 ≤ s && s < 300

/-- Modelled from the spec: the Request Executor `doRequest` (absent from
the visible sources). Issues one request; on 2xx and 404 returns the
response with no error, on 403 returns no response and a forbidden error,
on any other status returns no response and an error identifying the
unexpected code; a transport failure surfaces as an error with no
response. -/
def ImdbClient.doRequest (c : ImdbClient) (rf : RequestFields) :
    Option HttpResponse × Option ClientError :=
  match c.client rf with
  | .transportFailure msg => (none, some (.transport msg))
  | .response res =>
    if is2xx res.statusCode || res.statusCode == 404 then
      (some res, none)
    else if res.statusCode == 403 then
      (none, some (.api { httpStatusCode := 403, message := "forbidden" }))
    else
      (none, some (.api
        { httpStatusCode := res.statusCode
          message := "unexpected status code: " ++ toString res.statusCode }))

/-- Splits a character list at every occurrence of a separator; always
returns at least one (possibly empty) field. -/
def splitChar (sep : Char) : List Char → List (List Char)
  | [] => [[]]
  | c :: cs =>
    match splitChar sep cs with
    | [] => if c == sep then [[], [c]] else [[c]]
    | f :: fs => if c == sep then [] :: f :: fs else (c :: f) :: fs

/-- The comma-separated fields of one CSV line. -/
def fieldsOf (line : String) : List String :=
  (splitChar ',' line.data).map fun l => String.mk l

/-- The lines of a CSV body: split on newline, a trailing final newline
producing no extra record. -/
def csvLines (body : String) : List String :=
  let ls := (splitChar '\n' body.data).map fun l => String.mk l
  match ls.getLast? with
  | some "" => ls.dropLast
  | _ => ls

/-- Modelled from the spec: the CSV-body half of the parser (absent from
the visible sources). The first row is the header, consumed and
discarded; each subsequent row becomes one item; inconsistent field
counts (or an unreadable/empty body) fail with a parsing error and no
partial result. -/
def parseCsvBody (body : String) : Except String (List ImdbItem) :=
  match csvLines body with
  | [] => .error "failed to parse csv body: no records"
  | header :: dataRows =>
    if dataRows.all (fun r => (fieldsOf r).length == (fieldsOf header).length) then
      .ok (dataRows.map fun r => { fields := fieldsOf r })
    else
      .error "failed to parse csv body: inconsistent field counts"

/-- The fixed leading text of a well-formed Content-Disposition value. -/
def cdLead : String := "attachment; filename=\""

/-- The fixed trailing text of a well-formed Content-Disposition value. -/
def cdTrail : String := ".csv\""

/-- Strips an expected leading character sequence, returning the remainder
when the sequence is present. -/
def stripLead : List Char → List Char → Option (List Char)
  | [], l => some l
  | _ :: _, [] => none
  | p :: ps, c :: cs => if c == p then stripLead ps cs else none

/-- Extracts `<name>` from a value matching
`attachment; filename="<name>.csv"`, and `none` otherwise. -/
def parseFilename (v : String) : Option String :=
  match stripLead cdLead.data v.data with
  | none => none
  | some rest =>
    match stripLead cdTrail.data.reverse rest.reverse with
    | none => none
    | some mid => some (String.mk mid.reverse)

/-- Modelled from the spec: the header half of the parser (absent from the
visible sources). Fails with a parsing error if the Content-Disposition
header is absent or does not match the attachment-filename pattern. -/
def parseContentDisposition : Option String → Except String String
  | none => .error "failed to parse list name: missing Content-Disposition header"
  | some v =>
    match parseFilename v with
    | none => .error "failed to parse list name: malformed Content-Disposition header"
    | some nm => .ok nm

/-- Whether a character counts as alphanumeric for slug normalization. -/
def isAlphanumeric (c : Char) : Bool := c.isAlpha || c.isDigit

/-- Lowercases alphanumeric characters and collapses each maximal run of
other characters into a single hyphen; the flag records whether the
previous character was part of such a run. -/
def collapseToHyphens : Bool → List Char → List Char
  | _, [] => []
  | inRun, c :: cs =>
    if isAlphanumeric c then c.toLower :: collapseToHyphens false cs
    else if inRun then collapseToHyphens true cs
    else '-' :: collapseToHyphens true cs

/-- Removes leading and trailing hyphens. -/
def trimHyphens (l : List Char) : List Char :=
  ((l.dropWhile (· == '-')).reverse.dropWhile (· == '-')).reverse

/-- Modelled from the spec: slug normalization (absent from the visible
sources) — lowercase, collapse each maximal run of non-alphanumeric
characters to a single hyphen, trim leading and trailing hyphens. -/
def slugify (nm : String) : String :=
  String.mk (trimHyphens (collapseToHyphens false nm.data))

/-- The distinguished list name marking the watchlist. -/
def imdbListNameWatchlist : String := "WATCHLIST"

/-- Modelled from the spec: the CSV-to-entity parser (absent from the
visible sources). Derives the list name from the Content-Disposition
header, the watchlist flag by exact comparison with `"WATCHLIST"`, the
slug (literal `"watchlist"` for the watchlist, normalization otherwise),
and the items from the CSV body. -/
def readImdbListResponse (res : HttpResponse) (listId : String) :
    Option ImdbList × Option ClientError :=
  match parseContentDisposition res.contentDisposition with
  | .error m => (none, some (.parse m))
  | .ok listName =>
    match parseCsvBody res.body with
    | .error m => (none, some (.parse m))
    | .ok items =>
      let isW := listName == imdbListNameWatchlist
      (some { ListId := listId
              ListName := listName
              ListItems := items
              IsWatchlist := isW
              TraktListSlug := if isW then "watchlist" else slugify listName },
       none)

/-- The export endpoint for one list identifier. -/
def listEndpoint (listId : String) : String := "/list/" ++ listId ++ "/export"

/-- The request `ListGet` issues for one list identifier. -/
def ImdbClient.listRequest (c : ImdbClient) (listId : String) : RequestFields :=
  { Method := "GET", BasePath := c.config.BasePath, Endpoint := listEndpoint listId }

/-- Modelled from the spec: the List Fetcher `ListGet` (absent from the
visible sources). Builds `/list/{listId}/export`, delegates to the
Request Executor, propagates its errors, promotes a 404 response to a
not-found `ApiError`, and otherwise hands the response to the parser. -/
def ImdbClient.ListGet (c : ImdbClient) (listId : String) :
    Option ImdbList × Option ClientError :=
  match c.doRequest (c.listRequest listId) with
  | (_, some e) => (none, some e)
  | (some res, none) =>
    if res.statusCode == 404 then
      (none, some (.api
        { httpStatusCode := 404
          message := "list with id " ++ listId ++ " could not be found" }))
    else
      readImdbListResponse res listId
  | (none, none) => (none, none)

/-- Modelled from the spec: `WatchlistGet` (absent from the visible
sources) calls the shared list path with the configured watchlist
identifier. -/
def ImdbClient.WatchlistGet (c : ImdbClient) : Option ImdbList × Option ClientError :=
  c.ListGet c.config.WatchlistId

/-- Modelled from the spec: the state-passing view of one `ListGet` call —
the client retains no state across calls, so the call returns the client
unchanged alongside its result. -/
def ImdbClient.ListGetSt (c : ImdbClient) (listId : String) :
    (Option ImdbList × Option ClientError) × ImdbClient :=
  (c.ListGet listId, c)

/-- `s` contains `pat` as a contiguous substring. -/
def containsStr (s pat : String) : Prop :=
  ∃ pre post : String, s = pre ++ pat ++ post

/-- Exactly one of the value and the error of a Go-style result pair is
present. -/
def exclusiveOutcome {α β : Type} : Option α × Option β → Prop
  | (a, b) => (a.isSome = true ∧ b = none) ∨ (a = none ∧ b.isSome = true)

/-! ### Concrete fixtures used by the witnesses -/

/-- A concrete configuration matching the test file's. -/
def sampleConfig : ImdbConfig := { BasePath := "http://localhost", WatchlistId := "ls123456" }

/-- A concrete CSV export body: a header row and three data rows. -/
def watchedBody : String :=
  "Position,Const,Created\n1,tt0111161,2023-01-01\n2,tt0068646,2023-01-02\n3,tt0468569,2023-01-03\n"

/-- The items of `watchedBody`. -/
def watchedItems : List ImdbItem :=
  [{ fields := ["1", "tt0111161", "2023-01-01"] },
   { fields := ["2", "tt0068646", "2023-01-02"] },
   { fields := ["3", "tt0468569", "2023-01-03"] }]

/-- The Content-Disposition value of the named-list fixture. -/
def watchedCD : String := "attachment; filename=\"Watched (2023).csv\""

/-- The Content-Disposition value of the watchlist fixture. -/
def watchlistCD : String := "attachment; filename=\"WATCHLIST.csv\""

/-- A successful named-list response. -/
def resWatched : HttpResponse :=
  { statusCode := 200, contentDisposition := some watchedCD, body := watchedBody }

/-- A successful watchlist response. -/
def resWatchlist : HttpResponse :=
  { statusCode := 200, contentDisposition := some watchlistCD, body := watchedBody }

/-- A 404 response. -/
def resNotFound : HttpResponse :=
  { statusCode := 404, contentDisposition := none, body := "" }

/-- A 403 response. -/
def resForbidden : HttpResponse :=
  { statusCode := 403, contentDisposition := none, body := "" }

/-- A 500 response. -/
def resServerError : HttpResponse :=
  { statusCode := 500, contentDisposition := none, body := "" }

/-- A 200 response lacking the Content-Disposition header. -/
def resNoHeader : HttpResponse :=
  { statusCode := 200, contentDisposition := none, body := watchedBody }

/-- A client whose server answers every request with the given response. -/
def clientWith (res : HttpResponse) : ImdbClient :=
  { client := fun _ => .response res, config := sampleConfig }

/-! ### Helper lemmas -/

/-- `doRequest` on a 2xx or 404 response passes the response through. -/
theorem doRequest_pass (c : ImdbClient) (rf : RequestFields) (res : HttpResponse)
    (hresp : c.client rf = .response res)
    (h : is2xx res.statusCode = true ∨ res.statusCode = 404) :
    c.doRequest rf = (some res, none) := by
  unfold ImdbClient.doRequest
  rw [hresp]
  rcases h with h | h
  · simp [h]
  · simp [h, is2xx]

/-- A successful status below 300 is not 404. -/
theorem statusCode_2xx_ne_404 (s : Nat) (h : 200 ≤ s ∧ s < 300) : s ≠ 404 := by
  omega

/-- The not-found message contains the classification text. -/
theorem notFound_message_contains (listId : String) :
    containsStr ("list with id " ++ listId ++ " could not be found")
      "could not be found" := by
  have h : (" could not be found" : String) = " " ++ "could not be found" := by decide
  rw [h]
  exact ⟨"list with id " ++ (listId ++ " "), "",
    by simp [String.append_empty, String.append_assoc]⟩

/-- The unexpected-status message contains the classification text. -/
theorem unexpected_message_contains (s : Nat) :
    containsStr ("unexpected status code: " ++ toString s)
      "unexpected status code" := by
  have h : ("unexpected status code: " : String) =
      "unexpected status code" ++ ": " := by decide
  rw [h, String.append_assoc]
  exact ⟨"", ": " ++ toString s, rfl⟩

/-- `readImdbListResponse` never returns both or neither of entity and
error. -/
theorem readResponse_exclusive (res : HttpResponse) (listId : String) :
    exclusiveOutcome (readImdbListResponse res listId) := by
  unfold readImdbListResponse
  cases parseContentDisposition res.contentDisposition with
  | error m => simp [exclusiveOutcome]
  | ok nm =>
    cases parseCsvBody res.body with
    | error m => simp [exclusiveOutcome]
    | ok items => simp [exclusiveOutcome]

/-! ### Claims -/

/-- C5: for every HTTP 403 response, the Request Executor `doRequest`
returns no response and a non-nil error — forbidden is promoted to an
error at the executor layer. -/
theorem doRequest_forbidden (c : ImdbClient) (rf : RequestFields) (res : HttpResponse)
    (hresp : c.client rf = .response res) (h403 : res.statusCode = 403) :
    c.doRequest rf =
      (none, some (.api { httpStatusCode := 403, message := "forbidden" })) := by
  unfold ImdbClient.doRequest
  rw [hresp]
  simp [h403, is2xx]

/-- Witness for C5 at a concrete 403 response. -/
theorem doRequest_forbidden_witness :
    (clientWith resForbidden).doRequest
        ((clientWith resForbidden).listRequest "ls123456") =
      (none, some (.api { httpStatusCode := 403, message := "forbidden" })) :=
  doRequest_forbidden (clientWith resForbidden) _ resForbidden rfl rfl

/-- C1: for every HTTP 404 response on a list endpoint, `doRequest`
returns the response with no error, and `ListGet` returns a nil entity
with an `ApiError` whose message contains "could not be found" — the
not-found classification is made by the fetcher, not the executor. -/
theorem listGet_notFound_classification (c : ImdbClient) (listId : String)
    (res : HttpResponse)
    (hresp : c.client (c.listRequest listId) = .response res)
    (h404 : res.statusCode = 404) :
    c.doRequest (c.listRequest listId) = (some res, none) ∧
    ∃ e : ApiError, c.ListGet listId = (none, some (.api e)) ∧
      containsStr e.message "could not be found" := by
  have hdo : c.doRequest (c.listRequest listId) = (some res, none) :=
    doRequest_pass c _ res hresp (Or.inr h404)
  refine ⟨hdo,
    ⟨404, "list with id " ++ listId ++ " could not be found"⟩, ?_, ?_⟩
  · unfold ImdbClient.ListGet
    rw [hdo]
    simp [h404]
  · exact notFound_message_contains listId

/-- Witness for C1 at a concrete 404 response. -/
theorem listGet_notFound_classification_witness :
    (clientWith resNotFound).doRequest
        ((clientWith resNotFound).listRequest "ls123456") = (some resNotFound, none) ∧
    ∃ e : ApiError,
      (clientWith resNotFound).ListGet "ls123456" = (none, some (.api e)) ∧
      containsStr e.message "could not be found" :=
  listGet_notFound_classification (clientWith resNotFound) "ls123456" resNotFound rfl rfl

/-- C2: a successful response carrying
`Content-Disposition: attachment; filename="Watched (2023).csv"` parses
to a list entity with `ListName = "Watched (2023)"`,
`IsWatchlist = false` and `TraktListSlug = "watched-2023"` (lowercased,
non-alphanumeric runs collapsed to single hyphens, leading and trailing
hyphens trimmed). -/
theorem readResponse_watched_metadata (res : HttpResponse) (listId : String)
    (items : List ImdbItem)
    (hcd : res.contentDisposition = some "attachment; filename=\"Watched (2023).csv\"")
    (hcsv : parseCsvBody res.body = .ok items) :
    readImdbListResponse res listId =
      (some { ListId := listId
              ListName := "Watched (2023)"
              ListItems := items
              IsWatchlist := false
              TraktListSlug := "watched-2023" }, none) := by
  have h1 : parseContentDisposition res.contentDisposition = .ok "Watched (2023)" := by
    rw [hcd]
    rfl
  have hW : ("Watched (2023)" == imdbListNameWatchlist) = false := by decide
  have hS : slugify "Watched (2023)" = "watched-2023" := by decide
  unfold readImdbListResponse
  rw [h1, hcsv]
  simp [hW, hS]

/-- Witness for C2 at the concrete named-list fixture. -/
theorem readResponse_watched_metadata_witness :
    readImdbListResponse resWatched "ls123456" =
      (some { ListId := "ls123456"
              ListName := "Watched (2023)"
              ListItems := watchedItems
              IsWatchlist := false
              TraktListSlug := "watched-2023" }, none) :=
  readResponse_watched_metadata resWatched "ls123456" watchedItems rfl (by rfl)

/-- C4: a successful response carrying
`Content-Disposition: attachment; filename="WATCHLIST.csv"` parses to
`ListName = "WATCHLIST"`, `IsWatchlist = true` and the literal slug
`"watchlist"`; moreover for every parsed entity, `IsWatchlist` is true
iff `ListName` equals `"WATCHLIST"` exactly. -/
theorem readResponse_watchlist_metadata (res : HttpResponse) (listId : String)
    (items : List ImdbItem)
    (hcd : res.contentDisposition = some "attachment; filename=\"WATCHLIST.csv\"")
    (hcsv : parseCsvBody res.body = .ok items) :
    readImdbListResponse res listId =
      (some { ListId := listId
              ListName := "WATCHLIST"
              ListItems := items
              IsWatchlist := true
              TraktListSlug := "watchlist" }, none) ∧
    ∀ (res2 : HttpResponse) (lid : String) (l : ImdbList),
      readImdbListResponse res2 lid = (some l, none) →
      (l.IsWatchlist = true ↔ l.ListName = "WATCHLIST") := by
  constructor
  · have h1 : parseContentDisposition res.contentDisposition = .ok "WATCHLIST" := by
      rw [hcd]
      rfl
    have hW : ("WATCHLIST" == imdbListNameWatchlist) = true := by decide
    unfold readImdbListResponse
    rw [h1, hcsv]
    simp [hW]
  · intro res2 lid l hl
    unfold readImdbListResponse at hl
    cases h1 : parseContentDisposition res2.contentDisposition with
    | error m => rw [h1] at hl; simp at hl
    | ok nm =>
      rw [h1] at hl
      cases h2 : parseCsvBody res2.body with
      | error m => rw [h2] at hl; simp at hl
      | ok its =>
        rw [h2] at hl
        simp only [Prod.mk.injEq, Option.some.injEq] at hl
        rw [← hl.1]
        simp [imdbListNameWatchlist]

/-- Witness for C4 at the concrete watchlist fixture. -/
theorem readResponse_watchlist_metadata_witness :
    readImdbListResponse resWatchlist "ls123456" =
      (some { ListId := "ls123456"
              ListName := "WATCHLIST"
              ListItems := watchedItems
              IsWatchlist := true
              TraktListSlug := "watchlist" }, none) ∧
    ∀ (res2 : HttpResponse) (lid : String) (l : ImdbList),
      readImdbListResponse res2 lid = (some l, none) →
      (l.IsWatchlist = true ↔ l.ListName = "WATCHLIST") :=
  readResponse_watchlist_metadata resWatchlist "ls123456" watchedItems rfl (by rfl)

/-- C3: every valid CSV body made of a header row followed by N data rows
yields a `ListItems` with exactly N entries, in CSV row order; the header
row is consumed and never becomes an item. -/
theorem parser_csv_row_count (body header : String) (dataRows : List String)
    (hlines : csvLines body = header :: dataRows)
    (hconsist : (dataRows.all fun r =>
      (fieldsOf r).length == (fieldsOf header).length) = true) :
    parseCsvBody body = .ok (dataRows.map fun r => { fields := fieldsOf r }) ∧
    (dataRows.map fun r => ({ fields := fieldsOf r } : ImdbItem)).length =
      dataRows.length ∧
    ∀ (res : HttpResponse) (listId : String) (l : ImdbList),
      res.body = body →
      readImdbListResponse res listId = (some l, none) →
      l.ListItems = dataRows.map fun r => ({ fields := fieldsOf r } : ImdbItem) := by
  have hparse : parseCsvBody body =
      .ok (dataRows.map fun r => { fields := fieldsOf r }) := by
    unfold parseCsvBody
    rw [hlines]
    simp [hconsist]
  refine ⟨hparse, by simp, ?_⟩
  intro res listId l hb hl
  unfold readImdbListResponse at hl
  cases h1 : parseContentDisposition res.contentDisposition with
  | error m => rw [h1] at hl; simp at hl
  | ok nm =>
    rw [h1, hb, hparse] at hl
    simp only [Prod.mk.injEq, Option.some.injEq] at hl
    rw [← hl.1]

/-- Witness for C3 at the concrete three-row fixture body. -/
theorem parser_csv_row_count_witness :
    parseCsvBody watchedBody =
      .ok ((["1,tt0111161,2023-01-01", "2,tt0068646,2023-01-02",
             "3,tt0468569,2023-01-03"].map fun r => { fields := fieldsOf r })) ∧
    ((["1,tt0111161,2023-01-01", "2,tt0068646,2023-01-02",
       "3,tt0468569,2023-01-03"].map fun r =>
        ({ fields := fieldsOf r } : ImdbItem)).length =
      (["1,tt0111161,2023-01-01", "2,tt0068646,2023-01-02",
        "3,tt0468569,2023-01-03"] : List String).length) ∧
    ∀ (res : HttpResponse) (listId : String) (l : ImdbList),
      res.body = watchedBody →
      readImdbListResponse res listId = (some l, none) →
      l.ListItems = (["1,tt0111161,2023-01-01", "2,tt0068646,2023-01-02",
        "3,tt0468569,2023-01-03"].map fun r => ({ fields := fieldsOf r } : ImdbItem)) :=
  parser_csv_row_count watchedBody "Position,Const,Created"
    ["1,tt0111161,2023-01-01", "2,tt0068646,2023-01-02", "3,tt0468569,2023-01-03"]
    rfl rfl

/-- C6: every status other than 2xx, 403 and 404 makes `doRequest` return
no response and an error identifying the code, and `ListGet` return a nil
entity with an `ApiError` whose message contains
"unexpected status code". -/
theorem unexpected_status_classification (c : ImdbClient) (listId : String)
    (res : HttpResponse)
    (hresp : c.client (c.listRequest listId) = .response res)
    (h2xx : ¬(200 ≤ res.statusCode ∧ res.statusCode < 300))
    (h403 : res.statusCode ≠ 403) (h404 : res.statusCode ≠ 404) :
    c.doRequest (c.listRequest listId) =
      (none, some (.api
        { httpStatusCode := res.statusCode
          message := "unexpected status code: " ++ toString res.statusCode })) ∧
    ∃ e : ApiError, c.ListGet listId = (none, some (.api e)) ∧
      containsStr e.message "unexpected status code" := by
  have hx : is2xx res.statusCode = false := by
    simp [is2xx]
    omega
  have hdo : c.doRequest (c.listRequest listId) =
      (none, some (.api
        { httpStatusCode := res.statusCode
          message := "unexpected status code: " ++ toString res.statusCode })) := by
    unfold ImdbClient.doRequest
    rw [hresp]
    simp [hx, h403, h404]
  refine ⟨hdo,
    ⟨res.statusCode, "unexpected status code: " ++ toString res.statusCode⟩,
    ?_, unexpected_message_contains res.statusCode⟩
  unfold ImdbClient.ListGet
  rw [hdo]

/-- Witness for C6 at a concrete 500 response. -/
theorem unexpected_status_classification_witness :
    (clientWith resServerError).doRequest
        ((clientWith resServerError).listRequest "ls123456") =
      (none, some (.api
        { httpStatusCode := resServerError.statusCode
          message := "unexpected status code: " ++ toString resServerError.statusCode })) ∧
    ∃ e : ApiError,
      (clientWith resServerError).ListGet "ls123456" = (none, some (.api e)) ∧
      containsStr e.message "unexpected status code" :=
  unexpected_status_classification (clientWith resServerError) "ls123456"
    resServerError rfl (by decide) (by decide) (by decide)

/-- A successful `stripLead` means the expected text was a prefix. -/
theorem stripLead_eq_some (p : List Char) :
    ∀ l r : List Char, stripLead p l = some r → l = p ++ r := by
  induction p with
  | nil =>
    intro l r h
    simp [stripLead] at h
    simp [h]
  | cons a ps ih =>
    intro l r h
    cases l with
    | nil => simp [stripLead] at h
    | cons c cs =>
      rw [stripLead] at h
      split at h
      · next hca =>
        have hceq : c = a := by simpa using hca
        subst hceq
        simp [ih cs r h]
      · next => exact absurd h (by simp)

/-- A successful `parseFilename` means the value matched the
attachment-filename pattern exactly. -/
theorem parseFilename_eq_some (v nm : String) (h : parseFilename v = some nm) :
    v = cdLead ++ nm ++ cdTrail := by
  unfold parseFilename at h
  cases h1 : stripLead cdLead.data v.data with
  | none => rw [h1] at h; simp at h
  | some rest =>
    rw [h1] at h
    simp only [] at h
    cases h2 : stripLead cdTrail.data.reverse rest.reverse with
    | none => rw [h2] at h; simp at h
    | some mid =>
      rw [h2] at h
      simp only [Option.some.injEq] at h
      have e1 : v.data = cdLead.data ++ rest := stripLead_eq_some _ _ _ h1
      have e2 : rest.reverse = cdTrail.data.reverse ++ mid := stripLead_eq_some _ _ _ h2
      have e3 : rest = mid.reverse ++ cdTrail.data := by
        have e4 := congrArg List.reverse e2
        simpa [List.reverse_append] using e4
      have hnm : nm.data = mid.reverse := by rw [← h]
      apply String.ext
      rw [String.data_append, String.data_append, e1, e3, hnm]
      simp [List.append_assoc]

/-- C7: a successful (2xx) response whose Content-Disposition header is
absent or fails the `attachment; filename="<name>.csv"` pattern, or whose
CSV body is malformed, makes the fetch fail with a parsing error — no
entity, not even a partial one, is returned. -/
theorem listGet_parse_atomic (c : ImdbClient) (listId : String) (res : HttpResponse)
    (hresp : c.client (c.listRequest listId) = .response res)
    (h2xx : 200 ≤ res.statusCode ∧ res.statusCode < 300)
    (hbad : (res.contentDisposition = none ∨
              ∀ nm : String, res.contentDisposition ≠ some (cdLead ++ nm ++ cdTrail)) ∨
            csvLines res.body = [] ∨
            ∃ header dataRows, csvLines res.body = header :: dataRows ∧
              (dataRows.all fun r =>
                (fieldsOf r).length == (fieldsOf header).length) = false) :
    ∃ m : String, c.ListGet listId = (none, some (.parse m)) := by
  have hdo : c.doRequest (c.listRequest listId) = (some res, none) := by
    apply doRequest_pass c _ res hresp
    left
    simp [is2xx]
    omega
  have h404 : (res.statusCode == 404) = false := by
    simp
    omega
  have hred : c.ListGet listId = readImdbListResponse res listId := by
    unfold ImdbClient.ListGet
    rw [hdo]
    simp [h404]
  rw [hred]
  cases h1 : parseContentDisposition res.contentDisposition with
  | error m =>
    refine ⟨m, ?_⟩
    unfold readImdbListResponse
    rw [h1]
  | ok nm =>
    cases h2 : parseCsvBody res.body with
    | error m =>
      refine ⟨m, ?_⟩
      unfold readImdbListResponse
      rw [h1, h2]
    | ok items =>
      exfalso
      rcases hbad with hcd | hempty | ⟨header, dataRows, hl, hfalse⟩
      · rcases hcd with hnone | hnm
        · rw [hnone] at h1
          simp [parseContentDisposition] at h1
        · cases hv : res.contentDisposition with
          | none =>
            rw [hv] at h1
            simp [parseContentDisposition] at h1
          | some v =>
            rw [hv] at h1
            simp only [parseContentDisposition] at h1
            cases hf : parseFilename v with
            | none => rw [hf] at h1; simp at h1
            | some nm2 =>
              exact hnm nm2 (by rw [hv, parseFilename_eq_some v nm2 hf])
      · unfold parseCsvBody at h2
        rw [hempty] at h2
        simp at h2
      · unfold parseCsvBody at h2
        rw [hl] at h2
        simp [hfalse] at h2

/-- Witness for C7 at a concrete 200 response lacking the
Content-Disposition header. -/
theorem listGet_parse_atomic_witness :
    ∃ m : String,
      (clientWith resNoHeader).ListGet "ls123456" = (none, some (.parse m)) :=
  listGet_parse_atomic (clientWith resNoHeader) "ls123456" resNoHeader rfl
    (by decide) (Or.inl (Or.inl rfl))

/-- C8: `WatchlistGet` issues GET `/list/{configuredWatchlistId}/export`
(it depends on the server only through that request), and on a successful
watchlist response returns an entity whose `ListId` is the configured
identifier and whose `IsWatchlist` is true. -/
theorem watchlistGet_request_and_result (c : ImdbClient) (res : HttpResponse)
    (items : List ImdbItem)
    (hresp : c.client (c.listRequest c.config.WatchlistId) = .response res)
    (h2xx : 200 ≤ res.statusCode ∧ res.statusCode < 300)
    (hcd : res.contentDisposition = some "attachment; filename=\"WATCHLIST.csv\"")
    (hcsv : parseCsvBody res.body = .ok items) :
    (c.listRequest c.config.WatchlistId).Method = "GET" ∧
    (c.listRequest c.config.WatchlistId).Endpoint =
      "/list/" ++ c.config.WatchlistId ++ "/export" ∧
    (∀ c2 : ImdbClient, c2.config = c.config →
      c2.client (c.listRequest c.config.WatchlistId) =
        c.client (c.listRequest c.config.WatchlistId) →
      c2.WatchlistGet = c.WatchlistGet) ∧
    ∃ l : ImdbList, c.WatchlistGet = (some l, none) ∧
      l.ListId = c.config.WatchlistId ∧ l.IsWatchlist = true := by
  refine ⟨rfl, rfl, ?_, ?_⟩
  · intro c2 hcfg hcl
    have hreq : c2.listRequest c2.config.WatchlistId =
        c.listRequest c.config.WatchlistId := by
      simp [ImdbClient.listRequest, hcfg]
    unfold ImdbClient.WatchlistGet ImdbClient.ListGet ImdbClient.doRequest
    rw [hreq, hcl, hcfg]
  · have hdo : c.doRequest (c.listRequest c.config.WatchlistId) = (some res, none) := by
      apply doRequest_pass c _ res hresp
      left
      simp [is2xx]
      omega
    have h404 : (res.statusCode == 404) = false := by
      simp
      omega
    have h1 : parseContentDisposition res.contentDisposition = .ok "WATCHLIST" := by
      rw [hcd]
      rfl
    refine ⟨{ ListId := c.config.WatchlistId
              ListName := "WATCHLIST"
              ListItems := items
              IsWatchlist := true
              TraktListSlug := "watchlist" }, ?_, rfl, rfl⟩
    unfold ImdbClient.WatchlistGet ImdbClient.ListGet
    rw [hdo]
    simp only [h404, Bool.false_eq_true, if_false]
    unfold readImdbListResponse
    rw [h1, hcsv]
    simp [imdbListNameWatchlist]

/-- Witness for C8 at the concrete watchlist fixture. -/
theorem watchlistGet_request_and_result_witness :
    ((clientWith resWatchlist).listRequest
        (clientWith resWatchlist).config.WatchlistId).Method = "GET" ∧
    ((clientWith resWatchlist).listRequest
        (clientWith resWatchlist).config.WatchlistId).Endpoint =
      "/list/" ++ (clientWith resWatchlist).config.WatchlistId ++ "/export" ∧
    (∀ c2 : ImdbClient, c2.config = (clientWith resWatchlist).config →
      c2.client ((clientWith resWatchlist).listRequest
          (clientWith resWatchlist).config.WatchlistId) =
        (clientWith resWatchlist).client ((clientWith resWatchlist).listRequest
          (clientWith resWatchlist).config.WatchlistId) →
      c2.WatchlistGet = (clientWith resWatchlist).WatchlistGet) ∧
    ∃ l : ImdbList, (clientWith resWatchlist).WatchlistGet = (some l, none) ∧
      l.ListId = (clientWith resWatchlist).config.WatchlistId ∧
      l.IsWatchlist = true :=
  watchlistGet_request_and_result (clientWith resWatchlist) resWatchlist
    watchedItems rfl (by decide) rfl (by rfl)

/-- C9: two consecutive `ListGet` calls with the same identifier against
an unchanged server yield value-equal results — the call returns the
client unchanged, so no caching or shared mutable state influences the
second result. -/
theorem listGet_idempotent (c : ImdbClient) (listId : String)
    (r1 r2 : Option ImdbList × Option ClientError) (c1 c2 : ImdbClient)
    (h1 : c.ListGetSt listId = (r1, c1))
    (h2 : c1.ListGetSt listId = (r2, c2)) :
    r1 = r2 ∧ c2 = c := by
  unfold ImdbClient.ListGetSt at h1 h2
  simp only [Prod.mk.injEq] at h1 h2
  obtain ⟨hr1, hc1⟩ := h1
  obtain ⟨hr2, hc2⟩ := h2
  subst hc1
  subst hc2
  exact ⟨hr1.symm.trans hr2, rfl⟩

/-- Witness for C9 at the concrete named-list fixture. -/
theorem listGet_idempotent_witness :
    (clientWith resWatched).ListGet "ls123456" =
      (clientWith resWatched).ListGet "ls123456" ∧
    clientWith resWatched = clientWith resWatched :=
  listGet_idempotent (clientWith resWatched) "ls123456" _ _
    (clientWith resWatched) (clientWith resWatched) rfl rfl

/-- `doRequest` never returns both or neither of response and error. -/
theorem doRequest_exclusive (c : ImdbClient) (rf : RequestFields) :
    exclusiveOutcome (c.doRequest rf) := by
  unfold ImdbClient.doRequest
  cases c.client rf with
  | transportFailure m => simp [exclusiveOutcome]
  | response res =>
    by_cases hp : (is2xx res.statusCode || res.statusCode == 404) = true
    · simp [hp, exclusiveOutcome]
    · by_cases h403 : (res.statusCode == 403) = true
      · simp [hp, h403, exclusiveOutcome]
      · simp [hp, h403, exclusiveOutcome]

/-- `ListGet` never returns both or neither of entity and error. -/
theorem listGet_exclusive (c : ImdbClient) (listId : String) :
    exclusiveOutcome (c.ListGet listId) := by
  have hd := doRequest_exclusive c (c.listRequest listId)
  unfold ImdbClient.ListGet
  cases hq : c.doRequest (c.listRequest listId) with
  | mk a b =>
    rw [hq] at hd
    cases b with
    | some e => simp [exclusiveOutcome]
    | none =>
      cases a with
      | none => simp [exclusiveOutcome] at hd
      | some res =>
        by_cases h4 : (res.statusCode == 404) = true
        · simp [h4, exclusiveOutcome]
        · simp only [h4, Bool.false_eq_true, if_false]
          exact readResponse_exclusive res listId

/-- C10: every call to `doRequest`, `ListGet` and `WatchlistGet` returns
exactly one of value and error — success never carries an error and every
failure carries no value. -/
theorem result_error_exclusive (c : ImdbClient) (rf : RequestFields) (listId : String) :
    exclusiveOutcome (c.doRequest rf) ∧ exclusiveOutcome (c.ListGet listId) ∧
    exclusiveOutcome c.WatchlistGet :=
  ⟨doRequest_exclusive c rf, listGet_exclusive c listId,
    listGet_exclusive c c.config.WatchlistId⟩

end ImdbTraktSync
